import Mathlib

/-!
Shallow embedding of the simulation core of `SimpleGame.py` (the arcade
shooter).  Python floats are modelled by `ℚ`, Python ints by `ℤ`.  Calls to
`math.sin`, `math.cos`, `math.radians` and `math.hypot`, to the random number
generator and to the keyboard are modelled by an explicit per-frame context
(`Ctx`) of oracle values; everything else is translated line by line from the
source.  The peripheral particle system, camera shake and star field carry no
gameplay state (spec §4.5) and are omitted.
-/

namespace SimpleGame

/-- Screen width constant `SCREEN_WIDTH = 1024`. -/
def SCREEN_WIDTH : ℤ := 1024

/-- Screen height constant `SCREEN_HEIGHT = 720`. -/
def SCREEN_HEIGHT : ℤ := 720

/-- Frame rate constant `FPS = 60`. -/
def FPS : ℤ := 60

/-- Python's `int()` applied to a float: truncation toward zero. -/
def pyInt (q : ℚ) : ℤ := if 0 ≤ q then ⌊q⌋ else ⌈q⌉

/-- Python's `int(a / b)` for integers `a`, `b` (truncating division). -/
def pyIntDiv (a b : ℤ) : ℤ := Int.tdiv a b

/-- Python's two-argument `min` (first argument on ties). -/
def pymin (a b : ℚ) : ℚ := if a ≤ b then a else b

/-- Python's two-argument `max` (first argument on ties). -/
def pymax (a b : ℚ) : ℚ := if b ≤ a then a else b

/-- Python's two-argument `min` on integers. -/
def pyminInt (a b : ℤ) : ℤ := if a ≤ b then a else b

/-- Python's two-argument `max` on integers. -/
def pymaxInt (a b : ℤ) : ℤ := if b ≤ a then a else b

/-- `clamp(v, a, b) = max(a, min(b, v))` from the source. -/
def clamp (v a b : ℚ) : ℚ := pymax a (pymin b v)

/-- A `pygame.Rect`: integer position and size. -/
structure Rect where
  x : ℤ
  y : ℤ
  w : ℤ
  h : ℤ
deriving Repr, DecidableEq

/-- `pygame.Rect.colliderect`: true when the interiors of the two rectangles
overlap (touching edges do not collide; degenerate rects never collide). -/
def collide (a b : Rect) : Bool :=
  decide (a.x < b.x + b.w) && decide (b.x < a.x + a.w) &&
  decide (a.y < b.y + b.h) && decide (b.y < a.y + a.h)

/-- A player bullet (`class Bullet`): position, velocity, radius, damage.
The velocity components are stored values (the trigonometry that produced
them happens in `Player.shoot`, outside the per-frame update). -/
structure Bullet where
  x : ℚ
  y : ℚ
  vx : ℚ
  vy : ℚ
  radius : ℤ := 4
  dmg : ℤ := 1
deriving Repr, DecidableEq

/-- `Bullet.update`: move by the velocity. -/
def Bullet.updateStep (b : Bullet) : Bullet :=
  { b with x := b.x + b.vx, y := b.y + b.vy }

/-- `Bullet.get_rect`. -/
def Bullet.rect (b : Bullet) : Rect :=
  ⟨pyInt (b.x - (b.radius : ℚ)), pyInt (b.y - (b.radius : ℚ)), b.radius * 2, b.radius * 2⟩

/-- `Bullet.is_off`: out of the screen margin. -/
def Bullet.isOff (b : Bullet) : Bool :=
  decide (b.x < -50) || decide (b.x > (SCREEN_WIDTH : ℚ) + 50) ||
  decide (b.y < -50) || decide (b.y > (SCREEN_HEIGHT : ℚ) + 50)

/-- A bomb (`class Bomb`): fuse countdown, exploded flag, growing radius. -/
structure Bomb where
  x : ℚ
  y : ℚ
  timer : ℤ
  exploded : Bool
  explosion_radius : ℤ
  max_radius : ℤ
deriving Repr, DecidableEq

/-- `Bomb.__init__(x, y)`: 2-second fuse (`FPS * 2`), not yet exploded. -/
def mkBomb (x y : ℚ) : Bomb :=
  { x := x, y := y, timer := FPS * 2, exploded := false,
    explosion_radius := 0, max_radius := 140 }

/-- `Bomb.update`: count the fuse down; once exploded, grow the blast radius
by 8 per tick while it is below `max_radius`. -/
def Bomb.updateStep (b : Bomb) : Bomb :=
  if ¬b.exploded then
    let t := b.timer - 1
    if t ≤ 0 then { b with timer := t, exploded := true }
    else { b with timer := t }
  else
    if b.explosion_radius < b.max_radius then
      { b with explosion_radius := b.explosion_radius + 8 }
    else b

/-- `Bomb.get_explosion_rect` (only queried when exploded). -/
def Bomb.explosionRect (b : Bomb) : Rect :=
  ⟨pyInt (b.x - (b.explosion_radius : ℚ)), pyInt (b.y - (b.explosion_radius : ℚ)),
   b.explosion_radius * 2, b.explosion_radius * 2⟩

/-- `Bomb.finished`: exploded and the radius has reached the maximum. -/
def Bomb.finished (b : Bomb) : Bool :=
  b.exploded && decide (b.explosion_radius ≥ b.max_radius)

/-- An enemy (`class Enemy`): box, hit points, downward speed.  The source
has no kind attribute: the constructor takes `w`, `h`, `hp`, `speed`. -/
structure Enemy where
  x : ℚ
  y : ℚ
  w : ℤ := 36
  h : ℤ := 36
  hp : ℤ
  max_hp : ℤ
  speed : ℚ
deriving Repr, DecidableEq

/-- `Enemy.update`: move straight down. -/
def Enemy.updateStep (e : Enemy) : Enemy := { e with y := e.y + e.speed }

/-- `Enemy.get_rect`. -/
def Enemy.rect (e : Enemy) : Rect := ⟨pyInt e.x, pyInt e.y, e.w, e.h⟩

/-- A boss missile (`class Missile`): position, velocity toward the captured
target, bounded most-recent-first trail. -/
structure Missile where
  x : ℚ
  y : ℚ
  speed : ℚ
  vx : ℚ
  vy : ℚ
  trail : List (ℚ × ℚ)
deriving Repr, DecidableEq

/-- `Missile.__init__(sx, sy, tx, ty, speed)` given the value `dist` that
`math.hypot(dx, dy)` returned: a zero distance is replaced by 1 before the
division, so the construction never divides by zero. -/
def mkMissile (hypotQ : ℚ → ℚ → ℚ) (sx sy tx ty speed : ℚ) : Missile :=
  let dx := tx - sx
  let dy := ty - sy
  let dist0 := hypotQ dx dy
  let dist := if dist0 = 0 then 1 else dist0
  { x := sx, y := sy, speed := speed,
    vx := dx / dist * speed, vy := dy / dist * speed, trail := [] }

/-- `Missile.update`: record the trail (deque of maxlen 10, most recent
first), then move. -/
def Missile.updateStep (m : Missile) : Missile :=
  { m with trail := (m.x, m.y) :: m.trail.take 9, x := m.x + m.vx, y := m.y + m.vy }

/-- `Missile.get_rect`. -/
def Missile.rect (m : Missile) : Rect := ⟨pyInt m.x - 6, pyInt m.y - 8, 12, 16⟩

/-- `Missile.is_off`. -/
def Missile.isOff (m : Missile) : Bool :=
  decide (m.x < -50) || decide (m.x > (SCREEN_WIDTH : ℚ) + 50) ||
  decide (m.y < -50) || decide (m.y > (SCREEN_HEIGHT : ℚ) + 50)

/-- The boss (`class Boss`): level-scaled HP, HP-derived phase, entering
flag, attack timer and owned missiles. -/
structure Boss where
  level : ℤ
  w : ℤ := 180
  h : ℤ := 110
  x : ℚ
  y : ℚ
  target_y : ℚ := 60
  hp : ℤ
  max_hp : ℤ
  phase : ℤ
  entering : Bool
  timer : ℤ
  missiles : List Missile
  alive : Bool
deriving Repr, DecidableEq

/-- `Boss.__init__(level)`. -/
def mkBoss (level : ℤ) : Boss :=
  { level := level,
    x := (SCREEN_WIDTH / 2 - 180 / 2 : ℤ),
    y := ((-110 : ℤ) - 20 : ℤ),
    hp := 150 + (level - 1) * 60, max_hp := 150 + (level - 1) * 60,
    phase := 0, entering := true, timer := 0, missiles := [], alive := true }

/-- `Boss.get_rect`. -/
def Boss.rect (b : Boss) : Rect := ⟨pyInt b.x, pyInt b.y, b.w, b.h⟩

/-- The phase computation inside `Boss.update`: derived each tick from the
remaining-HP fraction (`> 0.66` → 0, `> 0.33` → 1, else 2). -/
def bossPhaseOf (hp max_hp : ℤ) : ℤ :=
  let hp_pct : ℚ := (hp : ℚ) / (max_hp : ℚ)
  if hp_pct > 0.66 then 0
  else if hp_pct > 0.33 then 1
  else 2

/-- The firing interval (in ticks) of each phase, read off the cadence
guards `timer % 80 == 0`, `timer % 50 == 0`, `timer % 12 == 0` of
`Boss.update`. -/
def phaseShotInterval (phase : ℤ) : ℤ :=
  if phase = 0 then 80 else if phase = 1 then 50 else 12

/-- `Boss.take_damage(dmg)`: subtract HP and report whether the boss was
killed (HP ≤ 0 clears `alive`). -/
def Boss.takeDamage (b : Boss) (dmg : ℤ) : Boss × Bool :=
  let b1 := { b with hp := b.hp - dmg }
  if b1.hp ≤ 0 then ({ b1 with alive := false }, true) else (b1, false)

/-- Power-up kinds drawn by `spawn_powerup` (`["score", "life", "rapid",
"weapon"]`). -/
inductive PKind where
  | score | life | rapid | weapon
deriving Repr, DecidableEq

/-- A power-up: the dict `{'x', 'y', 'type', 'timer'}` of `spawn_powerup`. -/
structure Powerup where
  x : ℚ
  y : ℚ
  kind : PKind
  timer : ℤ
deriving Repr, DecidableEq

/-- The player (`class Player`): box, HP, lives, score, weapon tier and the
owned bullet list (aliased as `Game.bullets`). -/
structure Player where
  x : ℚ
  y : ℚ
  w : ℤ := 38
  h : ℤ := 38
  speed : ℚ := 5.2
  hp : ℤ
  max_hp : ℤ
  fire_rate : ℤ := 10
  fire_timer : ℤ
  bullets : List Bullet
  bomb_cooldown : ℤ
  score : ℤ
  lives : ℤ
  weapon_level : ℤ
deriving Repr, DecidableEq

/-- `Player.__init__(x, y)`. -/
def mkPlayer (x y : ℚ) : Player :=
  { x := x, y := y, hp := 5, max_hp := 5, fire_timer := 0, bullets := [],
    bomb_cooldown := 0, score := 0, lives := 3, weapon_level := 1 }

/-- The player rectangle `pygame.Rect(player.x, player.y, player.w,
player.h)` built repeatedly inside `Game.update`. -/
def Player.rect (p : Player) : Rect := ⟨pyInt p.x, pyInt p.y, p.w, p.h⟩

/-- The whole game state mutated by `Game.update` (rendering, fonts and the
peripheral particle/camera/star state are omitted; `Game.bullets` is an
alias of `player.bullets` in the source, so only the player's list is
kept). -/
structure Game where
  player : Player
  enemies : List Enemy
  bombs : List Bomb
  spawn_timer : ℤ
  enemy_spawn_rate : ℤ
  boss : Option Boss
  boss_level : ℤ
  boss_fight : Bool
  boss_defeat_timer : ℤ
  powerups : List Powerup
  running : Bool
  game_over : Bool
  victory : Bool
deriving Repr, DecidableEq

/-- `Game.__init__` (gameplay state only). -/
def mkGame : Game :=
  { player := mkPlayer ((SCREEN_WIDTH / 2 : ℤ)) ((SCREEN_HEIGHT - 140 : ℤ)),
    enemies := [], bombs := [], spawn_timer := 0, enemy_spawn_rate := 45,
    boss := none, boss_level := 1, boss_fight := false, boss_defeat_timer := 0,
    powerups := [], running := true, game_over := false, victory := false }

/-- Per-frame oracle: keyboard snapshot plus the values produced by the
random number generator and the trigonometric library during one call to
`Game.update`.  Functions indexed by `ℕ` serve call sites that may run once
per list element within the frame. -/
structure Ctx where
  keyLeft : Bool
  keyRight : Bool
  keyUp : Bool
  keyDown : Bool
  /-- `random.randint(20, SCREEN_WIDTH - 60)` in `spawn_enemy`. -/
  spawnX : ℚ
  /-- index into `[1, 2, 3]` for `random.choice` in `spawn_enemy`. -/
  spawnHpIdx : ℕ
  /-- `random.uniform(1.2, 3.5)` in `spawn_enemy`. -/
  spawnSpeed : ℚ
  /-- `random.random()` drop roll for the i-th bullet's kill. -/
  dropRoll : ℕ → ℚ
  /-- index into the kind list for `random.choices` in `spawn_powerup`,
  for the i-th bullet's kill. -/
  puKindIdx : ℕ → ℕ
  /-- positions and kinds of the four power-ups of `boss_defeated`. -/
  bdX : ℕ → ℚ
  bdY : ℕ → ℚ
  bdKindIdx : ℕ → ℕ
  /-- `math.sin(pygame.time.get_ticks() * 0.001 + level) * 0.8`. -/
  tickSway : ℚ
  /-- models `math.sin` on radians. -/
  sinQ : ℚ → ℚ
  /-- models `math.cos` on radians. -/
  cosQ : ℚ → ℚ
  /-- models `math.radians`. -/
  radiansQ : ℚ → ℚ
  /-- models `math.hypot` in `Missile.__init__`. -/
  hypotQ : ℚ → ℚ → ℚ
  /-- `random.uniform(-0.4, 0.4)` aim jitter of boss phase 2. -/
  jitter : ℚ
  /-- `random.randint(20, self.w - 20)` launch offset of boss phase 2. -/
  xoff : ℚ

/-- `spawn_powerup(x, y)`: the kind is a weighted random draw, modelled by
an oracle index into the choice list; the time-to-live is `FPS * 8`. -/
def spawnPowerup (x y : ℚ) (kindIdx : ℕ) : Powerup :=
  let choices : List PKind := [PKind.score, PKind.life, PKind.rapid, PKind.weapon]
  { x := x, y := y, kind := choices.getD (kindIdx % choices.length) PKind.score,
    timer := FPS * 8 }

/-- `spawn_enemy`: random x above the top edge, `hp` chosen from
`[1, 2, 3]`, random speed. -/
def spawnEnemy (ctx : Ctx) : Enemy :=
  let hpChoices : List ℤ := [1, 2, 3]
  let hp := hpChoices.getD (ctx.spawnHpIdx % hpChoices.length) 1
  { x := ctx.spawnX, y := -40, hp := hp, max_hp := hp, speed := ctx.spawnSpeed }

/-- `Boss.update(player_x, player_y)`: descend while entering; otherwise
advance the attack timer, recompute the phase from the HP fraction, sway
horizontally, fire according to the phase cadence; finally move the owned
missiles and drop the off-screen ones. -/
def Boss.updateStep (ctx : Ctx) (px py : ℚ) (b : Boss) : Boss :=
  let b :=
    if b.entering then
      let y := b.y + 2.2
      if y ≥ b.target_y then { b with y := y, entering := false, timer := 0 }
      else { b with y := y }
    else
      let timer := b.timer + 1
      let phase := bossPhaseOf b.hp b.max_hp
      let x := clamp (b.x + ctx.tickSway) 0 ((SCREEN_WIDTH : ℚ) - (b.w : ℚ))
      let b1 := { b with timer := timer, phase := phase, x := x }
      if phase = 0 ∧ timer % 80 = 0 then
        { b1 with missiles := b1.missiles ++
            [mkMissile ctx.hypotQ (b1.x + (b1.w / 2 : ℤ)) (b1.y + (b1.h : ℚ)) px py 4] }
      else if phase = 1 ∧ timer % 50 = 0 then
        let fan := ([-25, -10, 0, 10, 25] : List ℚ).map (fun a =>
          let ang := ctx.radiansQ a
          let tx := px + ctx.sinQ ang * 200
          let ty := py + ctx.cosQ ang * 200
          mkMissile ctx.hypotQ (b1.x + (b1.w / 2 : ℤ)) (b1.y + (b1.h : ℚ)) tx ty 5)
        { b1 with missiles := b1.missiles ++ fan }
      else if phase = 2 ∧ timer % 12 = 0 then
        let tx := px + ctx.sinQ ctx.jitter * 120
        let ty := py + ctx.cosQ ctx.jitter * 120
        { b1 with missiles := b1.missiles ++
            [mkMissile ctx.hypotQ (b1.x + ctx.xoff) (b1.y + (b1.h : ℚ)) tx ty 6] }
      else b1
  { b with missiles := (b.missiles.map Missile.updateStep).filter (fun m => ¬m.isOff) }

/-- `Player.handle_input`: axis movement from the key snapshot, diagonal
normalization by 0.7071, then position clamped to the playfield. -/
def Player.handleInput (ctx : Ctx) (p : Player) : Player :=
  let dx0 : ℚ := (if ctx.keyLeft then -1 else 0) + (if ctx.keyRight then 1 else 0)
  let dy0 : ℚ := (if ctx.keyUp then -1 else 0) + (if ctx.keyDown then 1 else 0)
  let diag : Bool := decide (dx0 ≠ 0) && decide (dy0 ≠ 0)
  let dx := if diag then dx0 * 0.7071 else dx0
  let dy := if diag then dy0 * 0.7071 else dy0
  { p with x := clamp (p.x + dx * p.speed) 0 ((SCREEN_WIDTH : ℚ) - (p.w : ℚ)),
           y := clamp (p.y + dy * p.speed) 0 ((SCREEN_HEIGHT : ℚ) - (p.h : ℚ)) }

/-- `Player.update`: run the cooldown timers down and advance the owned
bullets, dropping the off-screen ones. -/
def Player.updateStep (p : Player) : Player :=
  { p with fire_timer := if p.fire_timer > 0 then p.fire_timer - 1 else p.fire_timer,
           bomb_cooldown := if p.bomb_cooldown > 0 then p.bomb_cooldown - 1 else p.bomb_cooldown,
           bullets := (p.bullets.map Bullet.updateStep).filter (fun b => ¬b.isOff) }

/-- The HP/lives cascade repeated verbatim at the three player-damage sites
of `Game.update` (bomb blast, boss missile, enemy body): `hp -= 1`; if HP
is now ≤ 0, `lives -= 1`, and either the game-over flag is set (lives ≤ 0)
or HP is reset to `max_hp`. -/
def hitPlayer (p : Player) (go : Bool) : Player × Bool :=
  let p1 := { p with hp := p.hp - 1 }
  if p1.hp ≤ 0 then
    let p2 := { p1 with lives := p1.lives - 1 }
    if p2.lives ≤ 0 then (p2, true)
    else ({ p2 with hp := p2.max_hp }, go)
  else (p1, go)

/-- The enemy-spawn block at the top of `Game.update`: outside a boss fight
the spawn timer advances and, once it reaches the score-scaled rate (floored
at 18), one enemy is spawned and the timer resets. -/
def spawnBlock (ctx : Ctx) (g : Game) : Game :=
  if ¬g.boss_fight then
    let st := g.spawn_timer + 1
    let rate := pymaxInt 18 (g.enemy_spawn_rate - pyIntDiv g.player.score 200)
    if st ≥ rate then
      { g with enemies := g.enemies ++ [spawnEnemy ctx], spawn_timer := 0 }
    else { g with spawn_timer := st }
  else g

/-- The enemy-advance loop of `Game.update`: move each enemy down; enemies
past the bottom margin are removed and credit 2 points each. -/
def moveEnemies : List Enemy → List Enemy × ℤ
  | [] => ([], 0)
  | e :: es =>
    let e1 := e.updateStep
    let (rest, ds) := moveEnemies es
    if e1.y > (SCREEN_HEIGHT : ℚ) + 50 then (rest, ds + 2) else (e1 :: rest, ds)

/-- The bomb loop of `Game.update`: advance each bomb's fuse/blast radius
and remove the finished ones. -/
def bombsStep (bombs : List Bomb) : List Bomb :=
  (bombs.map Bomb.updateStep).filter (fun b => ¬b.finished)

/-- The movement phase of `Game.update`: input, player cooldowns and owned
bullets, enemy spawning, enemy motion (with off-bottom scoring), the second
bullet motion step of the source, and bomb fuse/blast-radius advancement
with removal of finished bombs. -/
def movePhase (ctx : Ctx) (g : Game) : Game :=
  let p := Player.updateStep (Player.handleInput ctx g.player)
  let g := { g with player := p }
  let g := spawnBlock ctx g
  let (es, ds) := moveEnemies g.enemies
  let g := { g with enemies := es,
                    player := { g.player with score := g.player.score + ds } }
  let g := { g with player :=
    { g.player with bullets := g.player.bullets.map Bullet.updateStep } }
  { g with bombs := bombsStep g.bombs }

/-- `Game.boss_defeated`: wave-scaled score bonus (`800 * boss_level`),
leave the boss fight, drop the boss, advance the level, set the defeat
timer, and spawn four power-ups at random positions. -/
def bossDefeated (ctx : Ctx) (g : Game) : Game :=
  { g with player := { g.player with score := g.player.score + 800 * g.boss_level },
           boss_fight := false, boss := none, boss_level := g.boss_level + 1,
           boss_defeat_timer := FPS * 2,
           powerups := g.powerups ++ (List.range 4).map (fun j =>
             spawnPowerup (ctx.bdX j) (ctx.bdY j) (ctx.bdKindIdx j)) }

/-- The inner `for e in self.enemies[:]` loop of the bullet pass: the first
enemy intersecting the bullet rectangle takes the bullet's damage (the
bullet is consumed); a dead enemy is removed, credits 12 points and spawns
a power-up at its centre with probability 1/4.  Returns the updated enemy
list, the score delta, the spawned power-ups and whether a hit happened. -/
def bulletVsEnemies (br : Rect) (dmg : ℤ) (roll : ℚ) (kindIdx : ℕ) :
    List Enemy → List Enemy × ℤ × List Powerup × Bool
  | [] => ([], 0, [], false)
  | e :: es =>
    if collide br e.rect then
      let e1 := { e with hp := e.hp - dmg }
      if e1.hp ≤ 0 then
        let pus := if roll < 0.25 then
            [spawnPowerup (e1.x + ((e1.w / 2 : ℤ) : ℚ)) (e1.y + ((e1.h / 2 : ℤ) : ℚ)) kindIdx]
          else []
        (es, 12, pus, true)
      else (e1 :: es, 0, [], true)
    else
      let (es', ds, pus, hit) := bulletVsEnemies br dmg roll kindIdx es
      (e :: es', ds, pus, hit)

/-- The `for b in list(self.bullets)` collision pass of `Game.update`: each
bullet is tried against the enemies (first match only) and then against the
boss.  A bullet that hits the living boss is consumed, applies
`take_damage` (triggering `boss_defeated` on a kill) and `break`s the outer
loop, so the remaining bullets stay unprocessed in the live list.  Returns
the surviving bullets and the updated game. -/
def bulletsPass (ctx : Ctx) : ℕ → List Bullet → Game → List Bullet × Game
  | _, [], g => ([], g)
  | i, b :: bs, g =>
    let br := b.rect
    let r := bulletVsEnemies br b.dmg (ctx.dropRoll i) (ctx.puKindIdx i) g.enemies
    let hit := r.2.2.2
    let g1 := { g with enemies := r.1,
                       player := { g.player with score := g.player.score + r.2.1 },
                       powerups := g.powerups ++ r.2.2.1 }
    match g.boss with
    | some bo =>
      if bo.alive ∧ collide br bo.rect then
        let g2 := { g1 with boss := some (bo.takeDamage b.dmg).1 }
        let g3 := if (bo.takeDamage b.dmg).2 then bossDefeated ctx g2 else g2
        (bs, g3)
      else
        let rst := bulletsPass ctx (i + 1) bs g1
        (if hit then rst.1 else b :: rst.1, rst.2)
    | none =>
      let rst := bulletsPass ctx (i + 1) bs g1
      (if hit then rst.1 else b :: rst.1, rst.2)

/-- The `if self.boss:` block of one exploded bomb's blast resolution: a
boss overlapping the blast rectangle takes a fixed 8 damage, with the
defeat path on a kill. -/
def blastBoss (ctx : Ctx) (rect : Rect) (ob : Option Boss) (g1 : Game) : Game :=
  match ob with
  | some bo =>
    if collide rect bo.rect then
      if (bo.takeDamage 8).2 then
        bossDefeated ctx { g1 with boss := some (bo.takeDamage 8).1 }
      else { g1 with boss := some (bo.takeDamage 8).1 }
    else g1
  | none => g1

/-- One exploded bomb's blast resolution in `Game.update`: every enemy
overlapping the blast rectangle is destroyed for 8 points, the boss takes
blast damage via `blastBoss`, and an overlapping player runs the HP/lives
cascade.  A zero-radius rectangle collides with nothing, which also covers
the source's falsy-Rect guard. -/
def blastOne (ctx : Ctx) (bomb : Bomb) (g : Game) : Game :=
  if bomb.exploded then
    let rect := bomb.explosionRect
    let hits : ℤ := (g.enemies.countP (fun e => collide rect e.rect) : ℕ)
    let g1 := { g with enemies := g.enemies.filter (fun e => ¬collide rect e.rect),
                       player := { g.player with score := g.player.score + 8 * hits } }
    let g2 := blastBoss ctx rect g.boss g1
    if collide rect g2.player.rect then
      { g2 with player := (hitPlayer g2.player g2.game_over).1,
                game_over := (hitPlayer g2.player g2.game_over).2 }
    else g2
  else g

/-- The `for bomb in self.bombs[:]` blast pass over the (already advanced)
bomb list. -/
def blastPass (ctx : Ctx) : List Bomb → Game → Game
  | [], g => g
  | bomb :: rest, g => blastPass ctx rest (blastOne ctx bomb g)

/-- The `for m in list(self.boss.missiles)` pass: a missile overlapping the
player is removed and runs the HP/lives cascade. -/
def missilesVsPlayer : List Missile → Player → Bool → List Missile × Player × Bool
  | [], p, go => ([], p, go)
  | m :: ms, p, go =>
    if collide m.rect p.rect then
      missilesVsPlayer ms (hitPlayer p go).1 (hitPlayer p go).2
    else
      (m :: (missilesVsPlayer ms p go).1, (missilesVsPlayer ms p go).2)

/-- The missile pass wrapper (`if self.boss:` in the source). -/
def missilesPhase (g : Game) : Game :=
  match g.boss with
  | some bo =>
    { g with boss := some { bo with missiles := (missilesVsPlayer bo.missiles g.player g.game_over).1 },
             player := (missilesVsPlayer bo.missiles g.player g.game_over).2.1,
             game_over := (missilesVsPlayer bo.missiles g.player g.game_over).2.2 }
  | none => g

/-- The `for e in self.enemies[:]` body-collision pass: an enemy touching
the player is removed (no bounty) and runs the HP/lives cascade. -/
def enemiesVsPlayer : List Enemy → Player → Bool → List Enemy × Player × Bool
  | [], p, go => ([], p, go)
  | e :: es, p, go =>
    if collide p.rect e.rect then
      enemiesVsPlayer es (hitPlayer p go).1 (hitPlayer p go).2
    else
      (e :: (enemiesVsPlayer es p go).1, (enemiesVsPlayer es p go).2)

/-- The 18×18 pickup rectangle of a power-up. -/
def powerupRect (p : Powerup) : Rect := ⟨pyInt p.x, pyInt p.y, 18, 18⟩

/-- The power-up pickup pass: an overlapping power-up applies its effect
(50 points, +1 life, or weapon tier `min(3, tier + 1)` for both `rapid` and
`weapon`) and is removed. -/
def powerupsVsPlayer : List Powerup → Player → List Powerup × Player
  | [], p => ([], p)
  | pu :: pus, p =>
    if collide (powerupRect pu) p.rect then
      let p1 :=
        match pu.kind with
        | PKind.score => { p with score := p.score + 50 }
        | PKind.life => { p with lives := p.lives + 1 }
        | PKind.rapid => { p with weapon_level := pyminInt 3 (p.weapon_level + 1) }
        | PKind.weapon => { p with weapon_level := pyminInt 3 (p.weapon_level + 1) }
      powerupsVsPlayer pus p1
    else
      (pu :: (powerupsVsPlayer pus p).1, (powerupsVsPlayer pus p).2)

/-- The bullet pass wrapper: run `bulletsPass` over a snapshot of the
player's bullets and store the surviving list back (`self.bullets` is the
same list object as `self.player.bullets`). -/
def bulletsPhase (ctx : Ctx) (g : Game) : Game :=
  let bp := bulletsPass ctx 0 g.player.bullets g
  { bp.2 with player := { bp.2.player with bullets := bp.1 } }

/-- The blast pass wrapper: run `blastPass` over a snapshot of the bombs. -/
def blastPhase (ctx : Ctx) (g : Game) : Game := blastPass ctx g.bombs g

/-- The enemy body-collision pass wrapper. -/
def enemiesPhase (g : Game) : Game :=
  let ep := enemiesVsPlayer g.enemies g.player g.game_over
  { g with enemies := ep.1, player := ep.2.1, game_over := ep.2.2 }

/-- The power-up pickup pass wrapper. -/
def powerupsPhase (g : Game) : Game :=
  let pp := powerupsVsPlayer g.powerups g.player
  { g with powerups := pp.1, player := pp.2 }

/-- The combat-resolution phase of `Game.update`: bullets vs
enemies/boss, bomb blasts, boss missiles vs player, enemy bodies vs player,
then power-up pickups. -/
def combatPhase (ctx : Ctx) (g : Game) : Game :=
  powerupsPhase (enemiesPhase (missilesPhase (blastPhase ctx (bulletsPhase ctx g))))

/-- `Game.start_boss_fight`: raise the boss-fight flag, create the boss for
the current level, and clear enemies, player bullets (the `self.bullets`
alias), bombs and power-ups. -/
def startBossFight (g : Game) : Game :=
  { g with boss_fight := true, boss := some (mkBoss g.boss_level),
           enemies := [], player := { g.player with bullets := [] },
           bombs := [], powerups := [] }

/-- The boss-gate check at the end of `Game.update`: outside a boss fight,
reaching `2000 * boss_level` points starts the fight. -/
def bossGate (g : Game) : Game :=
  if ¬g.boss_fight ∧ g.player.score ≥ 2000 * g.boss_level then startBossFight g
  else g

/-- The final `if self.boss_fight and self.boss:` step: advance the boss
state machine aimed at the player's centre. -/
def bossTickPhase (ctx : Ctx) (g : Game) : Game :=
  if g.boss_fight then
    match g.boss with
    | some bo =>
      { g with boss := some (Boss.updateStep ctx
          (g.player.x + ((g.player.w / 2 : ℤ) : ℚ))
          (g.player.y + ((g.player.h / 2 : ℤ) : ℚ)) bo) }
    | none => g
  else g

/-- The tail of `Game.update`: boss gating followed by the boss tick. -/
def updateTail (ctx : Ctx) (g : Game) : Game := bossTickPhase ctx (bossGate g)

/-- `Game.update`: the per-frame simulation step.  Returns the state
unchanged when not running or already in the terminal game-over state
(the peripheral camera/star updates carry no gameplay state). -/
def update (ctx : Ctx) (g : Game) : Game :=
  if ¬g.running then g
  else if g.game_over then g
  else updateTail ctx (combatPhase ctx (movePhase ctx g))

/-! ### Concrete scenario data -/

/-- A neutral oracle: no keys pressed, deterministic random draws, zero
sway, trivial trigonometry. -/
def ctxNull : Ctx :=
  { keyLeft := false, keyRight := false, keyUp := false, keyDown := false,
    spawnX := 100, spawnHpIdx := 0, spawnSpeed := 2,
    dropRoll := fun _ => 1, puKindIdx := fun _ => 0,
    bdX := fun _ => 100, bdY := fun _ => 200, bdKindIdx := fun _ => 0,
    tickSway := 0, sinQ := fun _ => 0, cosQ := fun _ => 1,
    radiansQ := fun _ => 0, hypotQ := fun _ _ => 1, jitter := 0, xoff := 20 }

/-- A game state on its last HP of its last life, with one exploded bomb
overlapping the player and one enemy about to body-collide with the player
(but outside the blast), so that two damage sources land in one frame. -/
def gTwoHits : Game :=
  { player := { x := 500, y := 600, hp := 1, max_hp := 5, fire_timer := 0,
                bullets := [], bomb_cooldown := 0, score := 0, lives := 1,
                weapon_level := 1 },
    enemies := [{ x := 530, y := 608, hp := 2, max_hp := 2, speed := 2 }],
    bombs := [{ x := 505, y := 605, timer := 0, exploded := true,
                explosion_radius := 0, max_radius := 140 }],
    spawn_timer := 0, enemy_spawn_rate := 45,
    boss := none, boss_level := 1, boss_fight := false, boss_defeat_timer := 0,
    powerups := [], running := true, game_over := false, victory := false }

/-- A healthy player standing inside the blast region of a single exploded
bomb, with nothing else on screen. -/
def gBlast : Game :=
  { gTwoHits with
    player := { gTwoHits.player with hp := 5, lives := 3 }, enemies := [] }

/-- A state that has just reached the first boss score threshold. -/
def gGate : Game :=
  { gTwoHits with
    player := { gTwoHits.player with hp := 5, lives := 3, score := 2000 },
    enemies := [], bombs := [] }

/-- A terminal (game-over) state with entities still populated. -/
def gOver : Game :=
  { gTwoHits with game_over := true }

/-- An active (non-entering) level-1 boss at exactly 34% HP (51/150), one
tick away from a firing check. -/
def b34 : Boss :=
  { level := 1, x := 422, y := 60, hp := 51, max_hp := 150, phase := 1,
    entering := false, timer := 11, missiles := [], alive := true }

/-- A state holding a boss, used to evaluate `boss_defeated`. -/
def gBoss : Game :=
  { gTwoHits with
    player := { gTwoHits.player with hp := 5, lives := 3, score := 2500 },
    enemies := [], bombs := [],
    boss := some { b34 with hp := 3 }, boss_fight := true }

/-- A bullet sitting on top of the origin-cornered test enemies. -/
def bulletC : Bullet := { x := 100, y := 100, vx := 0, vy := 0 }

/-- A five-hit-point enemy ("tank" profile) under the test bullet. -/
def eTank : Enemy := { x := 100, y := 100, hp := 5, max_hp := 5, speed := 2 }

/-- A one-hit-point enemy under the test bullet. -/
def eBasic : Enemy := { x := 100, y := 100, hp := 1, max_hp := 1, speed := 2 }

/-- One unit-damage bullet hit on an enemy list paired with a running score
(the inner loop of the bullet pass, dropping the power-up roll). -/
def tankHitStep (st : List Enemy × ℤ) : List Enemy × ℤ :=
  let (es, ds, _, _) := bulletVsEnemies bulletC.rect 1 1 0 st.1
  (es, st.2 + ds)

/-- `n` successive unit-damage bullet hits on the tank-profile enemy. -/
def tankHits (n : ℕ) : List Enemy × ℤ := tankHitStep^[n] ([eTank], 0)

/-- The iterated bomb state: `n` ticks after creation at the origin. -/
def bombAt (n : ℕ) : Bomb := Bomb.updateStep^[n] (mkBomb 0 0)

/-- A weapon power-up lying on the tier-3 test player. -/
def puW : Powerup := { x := 100, y := 100, kind := PKind.weapon, timer := 480 }

/-- A tier-3 player standing on `puW`. -/
def pTier3 : Player :=
  { x := 100, y := 100, hp := 5, max_hp := 5, fire_timer := 0, bullets := [],
    bomb_cooldown := 0, score := 0, lives := 3, weapon_level := 3 }

/-- The oracle used by the C3 firing scenario: like `ctxNull` but with a
hypot oracle matching the scenario's aim geometry closely enough that the
fired missile stays on screen for its first step. -/
def ctx34 : Ctx := { ctxNull with hypotQ := fun _ _ => 553 }

/-! ### Theorems -/

/-- C5: once the terminal game-over state is reached, every subsequent call
to the per-frame update leaves the whole game state — player, enemies,
projectiles, bombs, power-ups and boss — unchanged, until an external reset
re-initializes the game. -/
theorem C5_game_over_freezes (ctx : Ctx) (g : Game) (h : g.game_over = true) :
    update ctx g = g := by
  unfold update
  split
  · rfl
  · simp [h]

/-- Witness for C5 at the concrete terminal state `gOver`. -/
theorem C5_game_over_freezes_witness :
    gOver.game_over = true ∧ update ctxNull gOver = gOver :=
  ⟨rfl, C5_game_over_freezes ctxNull gOver rfl⟩

/-- C1 (amended): a single damage event applied to a live player
(`1 ≤ hp ≤ max_hp`, `1 ≤ lives`) keeps `0 ≤ hp ≤ max_hp` and `0 ≤ lives`;
when it drops HP to 0 it decrements lives by exactly one, resets HP to
`max_hp` while lives remain, and raises the terminal game-over flag when
lives reach 0; otherwise it only lowers HP by one.  (The original claim's
"holds even when multiple damage sources hit within the same frame" fails:
see the counterexample.) -/
theorem C1_damage_cascade (p : Player) (go : Bool)
    (h1 : 1 ≤ p.hp) (h2 : p.hp ≤ p.max_hp) (h3 : 1 ≤ p.lives) :
    0 ≤ (hitPlayer p go).1.hp ∧
    (hitPlayer p go).1.hp ≤ (hitPlayer p go).1.max_hp ∧
    0 ≤ (hitPlayer p go).1.lives ∧
    (p.hp = 1 →
      (hitPlayer p go).1.lives = p.lives - 1 ∧
      (2 ≤ p.lives → (hitPlayer p go).1.hp = p.max_hp ∧ (hitPlayer p go).2 = go) ∧
      (p.lives = 1 → (hitPlayer p go).2 = true)) ∧
    (2 ≤ p.hp →
      (hitPlayer p go).1.hp = p.hp - 1 ∧ (hitPlayer p go).1.lives = p.lives ∧
      (hitPlayer p go).2 = go) := by
  simp only [hitPlayer]
  split_ifs with ha hb <;> simp_all <;> omega

/-- Witness for C1 at the freshly constructed player (hp 5, lives 3). -/
theorem C1_damage_cascade_witness :
    (1 : ℤ) ≤ (mkPlayer 0 0).hp ∧
    (0 ≤ (hitPlayer (mkPlayer 0 0) false).1.hp ∧
     (hitPlayer (mkPlayer 0 0) false).1.hp ≤ (hitPlayer (mkPlayer 0 0) false).1.max_hp ∧
     0 ≤ (hitPlayer (mkPlayer 0 0) false).1.lives ∧
     ((mkPlayer 0 0).hp = 1 →
       (hitPlayer (mkPlayer 0 0) false).1.lives = (mkPlayer 0 0).lives - 1 ∧
       (2 ≤ (mkPlayer 0 0).lives →
         (hitPlayer (mkPlayer 0 0) false).1.hp = (mkPlayer 0 0).max_hp ∧
         (hitPlayer (mkPlayer 0 0) false).2 = false) ∧
       ((mkPlayer 0 0).lives = 1 → (hitPlayer (mkPlayer 0 0) false).2 = true)) ∧
     (2 ≤ (mkPlayer 0 0).hp →
       (hitPlayer (mkPlayer 0 0) false).1.hp = (mkPlayer 0 0).hp - 1 ∧
       (hitPlayer (mkPlayer 0 0) false).1.lives = (mkPlayer 0 0).lives ∧
       (hitPlayer (mkPlayer 0 0) false).2 = false)) :=
  ⟨by norm_num [mkPlayer],
   C1_damage_cascade (mkPlayer 0 0) false (by norm_num [mkPlayer])
     (by norm_num [mkPlayer]) (by norm_num [mkPlayer])⟩

set_option maxHeartbeats 1000000 in
/-- Counterexample to C1 as stated: from a live state (hp 1, lives 1, not
game over), one frame in which a bomb blast and an enemy body both hit the
player ends with `hp = -1` and `lives = -1`, violating `0 ≤ hp` and
`lives ≥ 0` after resolution. -/
theorem C1_counterexample :
    gTwoHits.game_over = false ∧
    gTwoHits.player.hp = 1 ∧ gTwoHits.player.lives = 1 ∧
    (update ctxNull gTwoHits).player.hp = -1 ∧
    (update ctxNull gTwoHits).player.lives = -1 := by
  norm_num [update, updateTail, bossTickPhase, bossGate, combatPhase, bulletsPhase,
    blastPhase, enemiesPhase, powerupsPhase, movePhase,
    Player.handleInput, Player.updateStep, spawnBlock, moveEnemies, pyIntDiv,
    bulletsPass, blastPass, blastOne, blastBoss, missilesPhase, missilesVsPlayer,
    enemiesVsPlayer, powerupsVsPlayer, hitPlayer, gTwoHits, ctxNull,
    Bomb.updateStep, Bomb.finished, Bomb.explosionRect, bombsStep,
    Enemy.updateStep, Enemy.rect, Player.rect,
    collide, pyInt, clamp, pymin, pymax, pymaxInt, pyminInt, Bullet.updateStep,
    SCREEN_WIDTH, SCREEN_HEIGHT, FPS]

/-- Counterexample to C4 as stated: the boss-defeated handler leaves the
enemy spawn-rate state unchanged at a concrete input (no spawn-rate-floor
tightening takes place; the floor is the constant 18 inside `spawnBlock`). -/
theorem C4_counterexample :
    gBoss.enemy_spawn_rate = 45 ∧
    (bossDefeated ctxNull gBoss).enemy_spawn_rate = 45 := by
  norm_num [bossDefeated, gBoss, gTwoHits]

/-- C4 (amended): the boss-defeated handler awards the wave-scaled bonus
`800 * boss_level`, increments the level (wave) counter, removes the boss
(so no further missiles exist or are produced — the boss tick is a no-op on
a state without a boss), leaves the boss fight, sets the defeat timer, and
spawns exactly four power-ups; it does not touch the enemy spawn rate, has
no mini-boss flag to reset, and persists no score ranking. -/
theorem C4_boss_defeated_effects (ctx : Ctx) (g : Game) :
    (bossDefeated ctx g).player.score = g.player.score + 800 * g.boss_level ∧
    (bossDefeated ctx g).boss_level = g.boss_level + 1 ∧
    (bossDefeated ctx g).boss = none ∧
    (bossDefeated ctx g).boss_fight = false ∧
    (bossDefeated ctx g).boss_defeat_timer = FPS * 2 ∧
    (bossDefeated ctx g).powerups.length = g.powerups.length + 4 ∧
    (bossDefeated ctx g).enemy_spawn_rate = g.enemy_spawn_rate ∧
    (bossDefeated ctx g).enemies = g.enemies ∧
    (bossTickPhase ctx (bossDefeated ctx g)).boss = none := by
  refine ⟨rfl, rfl, rfl, rfl, rfl, ?_, rfl, rfl, ?_⟩
  · simp [bossDefeated]
  · simp [bossTickPhase, bossDefeated]

/-- C10: missile construction never divides by zero (the distance divisor
is replaced by 1 when the captured target equals the spawn point), and the
resulting velocity satisfies `vx² + vy² ≤ speed²` — the missile is never
faster than requested (it is exactly the requested speed when the distance
is nonzero, and zero in the degenerate case). -/
theorem C10_missile_construction (hypotQ : ℚ → ℚ → ℚ) (sx sy tx ty speed : ℚ)
    (hsq : (hypotQ (tx - sx) (ty - sy)) ^ 2 = (tx - sx) ^ 2 + (ty - sy) ^ 2) :
    (if hypotQ (tx - sx) (ty - sy) = 0 then (1 : ℚ)
     else hypotQ (tx - sx) (ty - sy)) ≠ 0 ∧
    (mkMissile hypotQ sx sy tx ty speed).vx ^ 2 +
      (mkMissile hypotQ sx sy tx ty speed).vy ^ 2 ≤ speed ^ 2 := by
  constructor
  · split_ifs with h
    · norm_num
    · exact h
  · simp only [mkMissile]
    split_ifs with h
    · have hdx : tx - sx = 0 ∧ ty - sy = 0 := by
        constructor <;> nlinarith [sq_nonneg (tx - sx), sq_nonneg (ty - sy), hsq, h]
      rw [hdx.1, hdx.2]
      simp
      positivity
    · have hd2 : (hypotQ (tx - sx) (ty - sy)) ^ 2 ≠ 0 := pow_ne_zero 2 h
      have calc1 :
          ((tx - sx) / hypotQ (tx - sx) (ty - sy) * speed) ^ 2 +
            ((ty - sy) / hypotQ (tx - sx) (ty - sy) * speed) ^ 2 = speed ^ 2 := by
        have expand :
            ((tx - sx) / hypotQ (tx - sx) (ty - sy) * speed) ^ 2 +
              ((ty - sy) / hypotQ (tx - sx) (ty - sy) * speed) ^ 2 =
            ((tx - sx) ^ 2 + (ty - sy) ^ 2) * speed ^ 2 /
              (hypotQ (tx - sx) (ty - sy)) ^ 2 := by
          ring
        rw [expand, ← hsq, mul_comm, mul_div_assoc, div_self hd2, mul_one]
      exact le_of_eq calc1

/-- Witness for C10 at the degenerate input: target equals spawn point and
the hypot oracle returns 0. -/
theorem C10_missile_construction_witness :
    ((fun _ _ => (0 : ℚ)) ((0 : ℚ) - 0) ((0 : ℚ) - 0)) ^ 2 =
      ((0 : ℚ) - 0) ^ 2 + ((0 : ℚ) - 0) ^ 2 ∧
    ((if (fun _ _ => (0 : ℚ)) ((0 : ℚ) - 0) ((0 : ℚ) - 0) = 0 then (1 : ℚ)
      else (fun _ _ => (0 : ℚ)) ((0 : ℚ) - 0) ((0 : ℚ) - 0)) ≠ 0 ∧
     (mkMissile (fun _ _ => (0 : ℚ)) 0 0 0 0 4).vx ^ 2 +
       (mkMissile (fun _ _ => (0 : ℚ)) 0 0 0 0 4).vy ^ 2 ≤ (4 : ℚ) ^ 2) :=
  ⟨by norm_num,
   C10_missile_construction (fun _ _ => 0) 0 0 0 0 4 (by norm_num)⟩

/-- C2: the transition into a boss fight fires exactly when the score has
reached `2000 * boss_level` while no boss fight is active; immediately
after it the enemies, player projectiles, bombs and power-ups collections
are all empty and a (single, `Option`-valued) Boss exists; in every other
case no boss is created and no collection is cleared by the update tail. -/
theorem C2_boss_gate (ctx : Ctx) (g : Game) :
    (¬g.boss_fight ∧ 2000 * g.boss_level ≤ g.player.score →
      (updateTail ctx g).boss_fight = true ∧
      ((updateTail ctx g).boss).isSome = true ∧
      (updateTail ctx g).enemies = [] ∧
      (updateTail ctx g).player.bullets = [] ∧
      (updateTail ctx g).bombs = [] ∧
      (updateTail ctx g).powerups = []) ∧
    (g.boss_fight = true ∨ g.player.score < 2000 * g.boss_level →
      (updateTail ctx g).boss_fight = g.boss_fight ∧
      ((updateTail ctx g).boss).isSome = (g.boss).isSome ∧
      (updateTail ctx g).enemies = g.enemies ∧
      (updateTail ctx g).player.bullets = g.player.bullets ∧
      (updateTail ctx g).bombs = g.bombs ∧
      (updateTail ctx g).powerups = g.powerups) := by
  unfold updateTail bossGate
  constructor
  · rintro ⟨hbf, hsc⟩
    rw [if_pos ⟨hbf, hsc⟩]
    simp [bossTickPhase, startBossFight]
  · intro h
    have hcond : ¬(¬g.boss_fight = true ∧ g.player.score ≥ 2000 * g.boss_level) := by
      rcases h with h | h
      · simp [h]
      · intro hc
        exact absurd hc.2 (not_le.mpr h)
    rw [if_neg hcond]
    unfold bossTickPhase
    split_ifs with hbf
    · cases hob : g.boss with
      | none => simp [hob]
      | some bo => simp [hob]
    · simp

/-- Witness for C2 at the concrete state `gGate` (score 2000, wave 1, no
boss fight active). -/
theorem C2_boss_gate_witness :
    (updateTail ctxNull gGate).boss_fight = true ∧
    ((updateTail ctxNull gGate).boss).isSome = true ∧
    (updateTail ctxNull gGate).enemies = [] ∧
    (updateTail ctxNull gGate).player.bullets = [] ∧
    (updateTail ctxNull gGate).bombs = [] ∧
    (updateTail ctxNull gGate).powerups = [] :=
  (C2_boss_gate ctxNull gGate).1 (by norm_num [gGate, gTwoHits])

/-- C3: for every tick of an active (non-entering) boss, the post-tick
phase is the pure function of `hp / max_hp` (`> 0.66` → 0, `> 0.33` → 1,
else 2); the phase firing intervals satisfy 12 < 50 < 80; a boss at
exactly 34% HP (51/150) is in phase 1, and a single 3-damage application
bringing it to 32% (48/150) makes it fire with the phase-2 cadence on the
very next tick (one phase-2 missile, speed 6, leaves the boss). -/
theorem C3_boss_phase (ctx : Ctx) (px py : ℚ) (b : Boss) (h : b.entering = false) :
    (Boss.updateStep ctx px py b).phase = bossPhaseOf b.hp b.max_hp ∧
    phaseShotInterval 2 < phaseShotInterval 1 ∧
    phaseShotInterval 1 < phaseShotInterval 0 ∧
    bossPhaseOf b34.hp b34.max_hp = 1 ∧
    (Boss.takeDamage b34 3).1.hp = 48 ∧ (Boss.takeDamage b34 3).2 = false ∧
    (Boss.updateStep ctx34 500 600 (Boss.takeDamage b34 3).1).phase = 2 ∧
    ((Boss.updateStep ctx34 500 600 (Boss.takeDamage b34 3).1).missiles.map
      (fun m => m.speed)) = [6] := by
  refine ⟨?_, by norm_num [phaseShotInterval], by norm_num [phaseShotInterval],
    ?_, ?_, ?_, ?_, ?_⟩
  · simp only [Boss.updateStep, h]
    split_ifs <;> simp_all
  · norm_num [bossPhaseOf, b34]
  · norm_num [Boss.takeDamage, b34]
  · norm_num [Boss.takeDamage, b34]
  · norm_num [Boss.updateStep, Boss.takeDamage, b34, ctx34, ctxNull, bossPhaseOf,
      clamp, pymin, pymax, SCREEN_WIDTH, mkMissile, Missile.updateStep, Missile.isOff,
      SCREEN_HEIGHT]
  · norm_num [Boss.updateStep, Boss.takeDamage, b34, ctx34, ctxNull, bossPhaseOf,
      clamp, pymin, pymax, SCREEN_WIDTH, mkMissile, Missile.updateStep, Missile.isOff,
      SCREEN_HEIGHT]

/-- Witness for C3 at the concrete active boss `b34`. -/
theorem C3_boss_phase_witness :
    b34.entering = false ∧
    (Boss.updateStep ctxNull 500 600 b34).phase = bossPhaseOf b34.hp b34.max_hp :=
  ⟨rfl, (C3_boss_phase ctxNull 500 600 b34 rfl).1⟩

/-- Closed form of the iterated bomb state: the fuse runs for 120 ticks,
then the blast radius grows by 8 per tick for 18 more ticks. -/
theorem bombAt_closed (n : ℕ) :
    bombAt n = { x := 0, y := 0, timer := 120 - ((min n 120 : ℕ) : ℤ),
                 exploded := decide (120 ≤ n),
                 explosion_radius := 8 * ((min (n - 120) 18 : ℕ) : ℤ),
                 max_radius := 140 } := by
  induction n with
  | zero => simp [bombAt, mkBomb, FPS]
  | succ n ih =>
    rw [bombAt, Function.iterate_succ_apply', ← bombAt, ih]
    simp only [Bomb.updateStep]
    split_ifs <;> simp_all [Bomb.mk.injEq, decide_eq_decide] <;> omega

/-- C8: a bomb follows the armed → exploding → finished lifecycle: it is
unexploded for its first `2 × FPS = 120` ticks and exploded from tick 120
on; afterwards the blast radius grows by 8 per tick, reaching the maximum
(radius ≥ 140) exactly 18 ticks after the explosion (tick 138), at which
point the per-frame bomb step removes it from the bomb list. -/
theorem C8_bomb_lifecycle (n : ℕ) :
    FPS * 2 = 120 ∧
    (mkBomb 0 0).timer = FPS * 2 ∧
    ((bombAt n).exploded = true ↔ 120 ≤ n) ∧
    (bombAt n).explosion_radius = 8 * ((min (n - 120) 18 : ℕ) : ℤ) ∧
    (bombAt n).max_radius = 140 ∧
    ((bombAt n).finished = true ↔ 138 ≤ n) ∧
    bombsStep [bombAt n] = (if 138 ≤ n + 1 then [] else [bombAt (n + 1)]) := by
  have hc := bombAt_closed n
  have hc1 := bombAt_closed (n + 1)
  have hfin : ((bombAt (n + 1)).finished = true) ↔ 138 ≤ n + 1 := by
    rw [hc1]; simp [Bomb.finished, decide_eq_true_eq]; omega
  have hstep : Bomb.updateStep (bombAt n) = bombAt (n + 1) :=
    (Function.iterate_succ_apply' Bomb.updateStep n (mkBomb 0 0)).symm
  refine ⟨rfl, rfl, ?_, ?_, ?_, ?_, ?_⟩
  · rw [hc]; simp
  · rw [hc]
  · rw [hc]
  · rw [hc]; simp [Bomb.finished, decide_eq_true_eq]; omega
  · by_cases hf : 138 ≤ n + 1
    · rw [if_pos hf]
      have hT : (bombAt (n + 1)).finished = true := hfin.mpr hf
      simp [bombsStep, hstep, hT]
    · rw [if_neg hf]
      have hF : (bombAt (n + 1)).finished = false := by
        cases hB : (bombAt (n + 1)).finished
        · rfl
        · exact absurd (hfin.mp hB) hf
      simp [bombsStep, hstep, hF]

/-- Counterexample to C7 as stated: the bullet-kill bounty is the constant
12; the killing hit on a 5-HP ("tank"-profile) enemy credits exactly the
same score as the killing hit on a 1-HP enemy, so no kind yields a strictly
larger bounty. -/
theorem C7_counterexample :
    (bulletVsEnemies bulletC.rect 1 1 0 [{ eTank with hp := 1 }]).2.1 = 12 ∧
    (bulletVsEnemies bulletC.rect 1 1 0 [eBasic]).2.1 = 12 ∧
    ¬((bulletVsEnemies bulletC.rect 1 1 0 [{ eTank with hp := 1 }]).2.1 >
      (bulletVsEnemies bulletC.rect 1 1 0 [eBasic]).2.1) := by
  norm_num [bulletVsEnemies, bulletC, eTank, eBasic, Bullet.rect, Enemy.rect,
    collide, pyInt]

/-- C7 (amended): enemies carry no kind attribute — `spawn_enemy` draws HP
from `[1, 2, 3]` — and every projectile kill credits the flat bounty 12; a
5-HP enemy takes exactly 5 unit-damage hits: the first four leave it alive
with no score, the fifth removes it and credits 12 exactly once. -/
theorem C7_enemy_kills (ctx : Ctx) :
    ((spawnEnemy ctx).hp = 1 ∨ (spawnEnemy ctx).hp = 2 ∨ (spawnEnemy ctx).hp = 3) ∧
    (tankHits 1).1 = [{ eTank with hp := 4 }] ∧ (tankHits 1).2 = 0 ∧
    (tankHits 2).1 = [{ eTank with hp := 3 }] ∧ (tankHits 2).2 = 0 ∧
    (tankHits 3).1 = [{ eTank with hp := 2 }] ∧ (tankHits 3).2 = 0 ∧
    (tankHits 4).1 = [{ eTank with hp := 1 }] ∧ (tankHits 4).2 = 0 ∧
    (tankHits 5).1 = [] ∧ (tankHits 5).2 = 12 := by
  constructor
  · simp only [spawnEnemy]
    have h3 : ctx.spawnHpIdx % 3 < 3 := Nat.mod_lt _ (by norm_num)
    interval_cases h : ctx.spawnHpIdx % 3 <;> simp [h]
  · norm_num [tankHits, tankHitStep, Function.iterate_succ_apply, bulletVsEnemies,
      bulletC, eTank, Bullet.rect, Enemy.rect, collide, pyInt]

set_option maxHeartbeats 2000000 in
/-- C6 (code bug): the bomb-blast pass damages an overlapping player on
every frame of the still-growing explosion, with no once-per-bomb guard:
from `gBlast` (one bomb, hp 5) the player loses one HP on each of two
consecutive frames of the same single bomb's blast. -/
theorem C6_blast_hits_player_every_frame :
    gBlast.bombs.length = 1 ∧ gBlast.player.hp = 5 ∧
    (update ctxNull gBlast).player.hp = 4 ∧
    (update ctxNull gBlast).bombs.length = 1 ∧
    (update ctxNull (update ctxNull gBlast)).player.hp = 3 := by
  norm_num [update, updateTail, bossTickPhase, bossGate, combatPhase, bulletsPhase,
    blastPhase, enemiesPhase, powerupsPhase, movePhase,
    Player.handleInput, Player.updateStep, spawnBlock, moveEnemies, pyIntDiv,
    bulletsPass, blastPass, blastOne, blastBoss, missilesPhase, missilesVsPlayer,
    enemiesVsPlayer, powerupsVsPlayer, hitPlayer, gBlast, gTwoHits, ctxNull,
    Bomb.updateStep, Bomb.finished, Bomb.explosionRect, bombsStep,
    Enemy.updateStep, Enemy.rect, Player.rect,
    collide, pyInt, clamp, pymin, pymax, pymaxInt, pyminInt, Bullet.updateStep,
    SCREEN_WIDTH, SCREEN_HEIGHT, FPS]

/-- The HP/lives cascade never touches the weapon tier. -/
theorem hitPlayer_weapon_level (p : Player) (go : Bool) :
    (hitPlayer p go).1.weapon_level = p.weapon_level := by
  simp only [hitPlayer]
  split_ifs <;> rfl

/-- The boss-defeated handler never touches the weapon tier. -/
theorem bossDefeated_weapon_level (ctx : Ctx) (g : Game) :
    (bossDefeated ctx g).player.weapon_level = g.player.weapon_level := rfl

/-- The bullet pass never touches the weapon tier. -/
theorem bulletsPass_weapon_level (ctx : Ctx) (i : ℕ) (bs : List Bullet) (g : Game) :
    (bulletsPass ctx i bs g).2.player.weapon_level = g.player.weapon_level := by
  induction bs generalizing i g with
  | nil => rfl
  | cons b bs ih =>
    rw [bulletsPass]
    cases hbo : g.boss with
    | none => simpa using ih (i + 1) _
    | some bo =>
      simp only
      by_cases hac : bo.alive = true ∧ collide b.rect bo.rect = true
      · rw [if_pos hac]
        by_cases hk : (bo.takeDamage b.dmg).2 = true
        · simp [hk, bossDefeated_weapon_level]
        · simp [hk]
      · rw [if_neg hac]
        simpa using ih (i + 1) _

/-- The blast-vs-boss block never touches the weapon tier. -/
theorem blastBoss_weapon_level (ctx : Ctx) (rect : Rect) (ob : Option Boss) (g1 : Game) :
    (blastBoss ctx rect ob g1).player.weapon_level = g1.player.weapon_level := by
  cases ob with
  | none => rfl
  | some bo =>
    rw [blastBoss]
    split_ifs <;> simp [bossDefeated_weapon_level]

/-- One bomb's blast resolution never touches the weapon tier. -/
theorem blastOne_weapon_level (ctx : Ctx) (bomb : Bomb) (g : Game) :
    (blastOne ctx bomb g).player.weapon_level = g.player.weapon_level := by
  simp only [blastOne]
  split_ifs <;> simp [hitPlayer_weapon_level, blastBoss_weapon_level]

/-- The blast pass never touches the weapon tier. -/
theorem blastPass_weapon_level (ctx : Ctx) (bombs : List Bomb) (g : Game) :
    (blastPass ctx bombs g).player.weapon_level = g.player.weapon_level := by
  induction bombs generalizing g with
  | nil => rfl
  | cons bomb rest ih =>
    rw [blastPass]
    rw [ih, blastOne_weapon_level]

/-- The missile pass never touches the weapon tier. -/
theorem missilesVsPlayer_weapon_level (ms : List Missile) (p : Player) (go : Bool) :
    (missilesVsPlayer ms p go).2.1.weapon_level = p.weapon_level := by
  induction ms generalizing p go with
  | nil => rfl
  | cons m ms ih =>
    rw [missilesVsPlayer]
    split_ifs with hc
    · rw [ih, hitPlayer_weapon_level]
    · simpa using ih p go

/-- The missile phase never touches the weapon tier. -/
theorem missilesPhase_weapon_level (g : Game) :
    (missilesPhase g).player.weapon_level = g.player.weapon_level := by
  rw [missilesPhase]
  cases hbo : g.boss with
  | none => rfl
  | some bo => simp [missilesVsPlayer_weapon_level]

/-- The enemy body-collision pass never touches the weapon tier. -/
theorem enemiesVsPlayer_weapon_level (es : List Enemy) (p : Player) (go : Bool) :
    (enemiesVsPlayer es p go).2.1.weapon_level = p.weapon_level := by
  induction es generalizing p go with
  | nil => rfl
  | cons e es ih =>
    rw [enemiesVsPlayer]
    split_ifs with hc
    · rw [ih, hitPlayer_weapon_level]
    · simpa using ih p go

/-- The power-up pickup pass keeps the weapon tier within `[1, 3]` and
never decreases it. -/
theorem powerupsVsPlayer_weapon_level (pus : List Powerup) (p : Player)
    (h1 : 1 ≤ p.weapon_level) (h2 : p.weapon_level ≤ 3) :
    1 ≤ (powerupsVsPlayer pus p).2.weapon_level ∧
    (powerupsVsPlayer pus p).2.weapon_level ≤ 3 ∧
    p.weapon_level ≤ (powerupsVsPlayer pus p).2.weapon_level := by
  induction pus generalizing p with
  | nil => exact ⟨h1, h2, le_refl _⟩
  | cons pu pus ih =>
    rw [powerupsVsPlayer]
    split_ifs with hc
    · cases hk : pu.kind with
      | score => exact ih _ h1 h2
      | life => exact ih _ h1 h2
      | rapid =>
        have hr := ih { p with weapon_level := pyminInt 3 (p.weapon_level + 1) }
          (by simp [pyminInt]; split_ifs <;> omega)
          (by simp [pyminInt]; split_ifs <;> omega)
        refine ⟨hr.1, hr.2.1, le_trans ?_ hr.2.2⟩
        simp [pyminInt]
        split_ifs <;> omega
      | weapon =>
        have hr := ih { p with weapon_level := pyminInt 3 (p.weapon_level + 1) }
          (by simp [pyminInt]; split_ifs <;> omega)
          (by simp [pyminInt]; split_ifs <;> omega)
        refine ⟨hr.1, hr.2.1, le_trans ?_ hr.2.2⟩
        simp [pyminInt]
        split_ifs <;> omega
    · simpa using ih p h1 h2

/-- The movement phase never touches the weapon tier. -/
theorem movePhase_weapon_level (ctx : Ctx) (g : Game) :
    (movePhase ctx g).player.weapon_level = g.player.weapon_level := by
  simp only [movePhase, spawnBlock, Player.updateStep, Player.handleInput]
  split_ifs <;> rfl

/-- The boss gate and boss tick never touch the weapon tier. -/
theorem updateTail_weapon_level (ctx : Ctx) (g : Game) :
    (updateTail ctx g).player.weapon_level = g.player.weapon_level := by
  rw [updateTail, bossGate]
  split_ifs with hc
  · rw [bossTickPhase]
    split_ifs with hb
    · rfl
    · rfl
  · rw [bossTickPhase]
    split_ifs with hb
    · cases hbo : g.boss with
      | none => rfl
      | some bo => simp [hbo]
    · rfl

/-- The bullet phase wrapper never touches the weapon tier. -/
theorem bulletsPhase_weapon_level (ctx : Ctx) (g : Game) :
    (bulletsPhase ctx g).player.weapon_level = g.player.weapon_level := by
  simp only [bulletsPhase]
  exact bulletsPass_weapon_level ctx 0 g.player.bullets g

/-- The enemy phase wrapper never touches the weapon tier. -/
theorem enemiesPhase_weapon_level (g : Game) :
    (enemiesPhase g).player.weapon_level = g.player.weapon_level := by
  simp only [enemiesPhase]
  exact enemiesVsPlayer_weapon_level g.enemies g.player g.game_over

/-- The combat phase keeps the weapon tier within `[1, 3]` and never
decreases it. -/
theorem combatPhase_weapon_level (ctx : Ctx) (g : Game)
    (h1 : 1 ≤ g.player.weapon_level) (h2 : g.player.weapon_level ≤ 3) :
    1 ≤ (combatPhase ctx g).player.weapon_level ∧
    (combatPhase ctx g).player.weapon_level ≤ 3 ∧
    g.player.weapon_level ≤ (combatPhase ctx g).player.weapon_level := by
  rw [combatPhase]
  have heq :
      (enemiesPhase (missilesPhase (blastPhase ctx
        (bulletsPhase ctx g)))).player.weapon_level = g.player.weapon_level := by
    rw [enemiesPhase_weapon_level, missilesPhase_weapon_level]
    show (blastPass ctx _ _).player.weapon_level = _
    rw [blastPass_weapon_level, bulletsPhase_weapon_level]
  rw [powerupsPhase]
  have hp := powerupsVsPlayer_weapon_level
    (enemiesPhase (missilesPhase (blastPhase ctx (bulletsPhase ctx g)))).powerups
    (enemiesPhase (missilesPhase (blastPhase ctx (bulletsPhase ctx g)))).player
    (by rw [heq]; exact h1) (by rw [heq]; exact h2)
  exact ⟨hp.1, hp.2.1, by rw [heq] at hp; exact hp.2.2⟩

/-- C9: across a whole frame the weapon tier stays in `[1, 3]` and never
decreases (provided it starts in range); each individual power-up pickup
either leaves the tier unchanged or sets it to `min(3, tier + 1)`; and a
pickup at tier 3 leaves the tier at 3 while still consuming the power-up. -/
theorem C9_weapon_tier (ctx : Ctx) (g : Game) :
    (1 ≤ g.player.weapon_level → g.player.weapon_level ≤ 3 →
      1 ≤ (update ctx g).player.weapon_level ∧
      (update ctx g).player.weapon_level ≤ 3 ∧
      g.player.weapon_level ≤ (update ctx g).player.weapon_level) ∧
    (∀ pu p, (powerupsVsPlayer [pu] p).2.weapon_level = p.weapon_level ∨
      (powerupsVsPlayer [pu] p).2.weapon_level = pyminInt 3 (p.weapon_level + 1)) ∧
    (∀ pu p, collide (powerupRect pu) p.rect = true → p.weapon_level = 3 →
      (powerupsVsPlayer [pu] p).2.weapon_level = 3 ∧
      (powerupsVsPlayer [pu] p).1 = []) := by
  refine ⟨?_, ?_, ?_⟩
  · intro h1 h2
    rw [update]
    split_ifs with hr hgo
    all_goals first
      | exact ⟨h1, h2, le_refl _⟩
      | (rw [updateTail_weapon_level]
         have hm := movePhase_weapon_level ctx g
         have hc := combatPhase_weapon_level ctx (movePhase ctx g)
           (by rw [hm]; exact h1) (by rw [hm]; exact h2)
         rw [hm] at hc
         exact hc)
  · intro pu p
    rw [powerupsVsPlayer]
    split_ifs with hc
    · cases hk : pu.kind <;> simp [powerupsVsPlayer]
    · simp [powerupsVsPlayer]
  · intro pu p hc h3
    rw [powerupsVsPlayer, if_pos hc]
    cases hk : pu.kind <;> simp [powerupsVsPlayer, h3, pyminInt]

/-- Witness for C9 at the fresh game (tier 1) and the tier-3 test player. -/
theorem C9_weapon_tier_witness :
    (1 ≤ (update ctxNull mkGame).player.weapon_level ∧
     (update ctxNull mkGame).player.weapon_level ≤ 3 ∧
     mkGame.player.weapon_level ≤ (update ctxNull mkGame).player.weapon_level) ∧
    ((powerupsVsPlayer [puW] pTier3).2.weapon_level = 3 ∧
     (powerupsVsPlayer [puW] pTier3).1 = []) :=
  ⟨(C9_weapon_tier ctxNull mkGame).1 (by norm_num [mkGame, mkPlayer])
      (by norm_num [mkGame, mkPlayer]),
   (C9_weapon_tier ctxNull mkGame).2.2 puW pTier3
      (by norm_num [collide, powerupRect, Player.rect, puW, pTier3, pyInt])
      (by norm_num [pTier3])⟩

end SimpleGame
